import Mathlib

/-!
Shallow embedding of `homework.py` (a Telegram homework-status polling bot)
and proofs about its behaviour.

The bot's data travels as decoded JSON (Python objects), modelled here by
the inductive type `Value`.  Python exceptions are modelled by the error
side of `Except PyError`.  Logging calls are modelled by returning the list
of emitted `LogEvent`s.  The two network effects (the HTTP GET in
`get_api_answer` and `bot.send_message` in `send_message`) are modelled by
abstract outcomes supplied as arguments: an `HttpOutcome` describing what
the HTTP client did, and an `Except String Unit` describing whether the
Telegram delivery succeeded.
-/

namespace HomeworkBot

/-- Severity levels used by the script's logger calls. -/
inductive LogLevel where
  | debug
  | error
  | critical
deriving DecidableEq, Repr

/-- One emitted log record: level and message. -/
structure LogEvent where
  level : LogLevel
  msg : String
deriving DecidableEq, Repr

/-- Decoded JSON / Python object values flowing through the script. -/
inductive Value where
  | null
  | bool (b : Bool)
  | int (n : Int)
  | str (s : String)
  | list (xs : List Value)
  | dict (entries : List (String × Value))

/-- Python truthiness test `not v` used by `parse_status` (`if not homework`):
`None`, `False`, `0`, the empty string, the empty list and the empty dict
are falsy. -/
def Value.pyFalsy : Value → Bool
  | .null => true
  | .bool b => !b
  | .int n => n == 0
  | .str s => s == ""
  | .list xs => xs.isEmpty
  | .dict es => es.isEmpty

/-- The apostrophe character, used by Python `repr` of strings. -/
def squote : String := String.singleton (Char.ofNat 39)

mutual

/-- Python `str()` of a value, as used by f-string interpolation
(`f-strings` call `str`, which for containers falls back to `repr`). -/
def Value.pyStr : Value → String
  | .null => "None"
  | .bool true => "True"
  | .bool false => "False"
  | .int n => toString n
  | .str s => s
  | .list xs => "[" ++ pyStrListAux xs ++ "]"
  | .dict es => "\x7b" ++ pyStrDictAux es ++ "\x7d"

/-- Python `repr()` of a value (strings gain quotes, containers recurse). -/
def Value.pyRepr : Value → String
  | .null => "None"
  | .bool true => "True"
  | .bool false => "False"
  | .int n => toString n
  | .str s => squote ++ s ++ squote
  | .list xs => "[" ++ pyStrListAux xs ++ "]"
  | .dict es => "\x7b" ++ pyStrDictAux es ++ "\x7d"

/-- Comma-joined `repr`s of the elements of a Python list. -/
def pyStrListAux : List Value → String
  | [] => ""
  | [v] => v.pyRepr
  | v :: rest => v.pyRepr ++ ", " ++ pyStrListAux rest

/-- Comma-joined `repr`ed key/value pairs of a Python dict. -/
def pyStrDictAux : List (String × Value) → String
  | [] => ""
  | [(k, v)] => squote ++ k ++ squote ++ ": " ++ v.pyRepr
  | (k, v) :: rest =>
      squote ++ k ++ squote ++ ": " ++ v.pyRepr ++ ", " ++ pyStrDictAux rest

end

/-- Python exceptions raised by the script.  `pyMessage` below gives the
text `str(e)` produces for each; the script only ever raises `TypeError`,
`KeyError` and (for the empty-homework case) `ValueError` without
arguments, whose `str` is the empty string. -/
inductive PyError where
  | typeError
  | keyError
  | valueError (msg : String)
  | httpError (msg : String)
  | attributeError (msg : String)
deriving DecidableEq, Repr

/-- What `str(e)` returns for each exception the script can raise
(`str` of an argument-less built-in exception is the empty string). -/
def PyError.pyMessage : PyError → String
  | .typeError => ""
  | .keyError => ""
  | .valueError m => m
  | .httpError m => m
  | .attributeError m => m

/-- The fixed verdict table `HOMEWORK_VERDICTS` from the source. -/
def HOMEWORK_VERDICTS : List (String × String) :=
  [("approved", "Работа проверена: ревьюеру всё понравилось. Ура!"),
   ("reviewing", "Работа взята на проверку ревьюером."),
   ("rejected", "Работа проверена: у ревьюера есть замечания.")]

/-- Fixed retry sleep, seconds (`RETRY_PERIOD`). -/
def RETRY_PERIOD : Nat := 600

/-- The three environment credentials read at startup
(`PRACTICUM_TOKEN`, `TELEGRAM_TOKEN`, `TELEGRAM_CHAT_ID`); `none` models
an unset environment variable. -/
structure Config where
  practicum_token : Option String
  telegram_token : Option String
  telegram_chat_id : Option String
deriving DecidableEq, Repr

/-- Python truthiness of an optional string: `not token` is true when the
variable is unset or the empty string. -/
def tokenPresent : Option String → Bool
  | none => false
  | some s => s != ""

/-- The `for name, token in tokens.items()` loop of `check_tokens`. -/
def check_tokensAux : List (String × Option String) → Bool × List LogEvent
  | [] => (true, [])
  | (name, token) :: rest =>
      if !tokenPresent token then
        (false,
         [⟨.critical,
           "Отсутствует обязательная переменная окружения: " ++ name
             ++ ". Программа остановлена принудительно."⟩])
      else check_tokensAux rest

/-- Embedding of `check_tokens`: walks the three credentials in order,
logs a critical message and returns `false` at the first falsy one,
returns `true` when all are present. -/
def check_tokens (cfg : Config) : Bool × List LogEvent :=
  check_tokensAux
    [("PRACTICUM_TOKEN", cfg.practicum_token),
     ("TELEGRAM_TOKEN", cfg.telegram_token),
     ("TELEGRAM_CHAT_ID", cfg.telegram_chat_id)]

/-- Embedding of `send_message`.  `attempt` is the outcome of the
underlying `bot.send_message` call (`.error e` when it raises, `e` being
`str` of the exception).  The `try`/`except Exception` wrapper makes both
branches return normally, so the result is always `.ok` — the returned
value is the list of log events emitted. -/
def send_message (attempt : Except String Unit) (message : String) :
    Except PyError (List LogEvent) :=
  match attempt with
  | .ok _ =>
      .ok [⟨.debug, "Сообщение отправлено успешно: " ++ message ++ "."⟩]
  | .error e =>
      .ok [⟨.error, "Не удалось отправить сообщение: " ++ e ++ "."⟩]

/-- Outcome of the single `requests.get` call inside `get_api_answer`:
either the client raised a `requests.RequestException` (transport failure,
`e` being `str` of the exception), or a response arrived carrying an HTTP
status code and a body that either decodes as JSON or fails to
(`.error e` models `response.json()` raising `ValueError`). -/
inductive HttpOutcome where
  | transportError (e : String)
  | response (status_code : Nat) (body : Except String Value)

/-- The success status `HTTPStatus.OK`. -/
def HTTPStatusOK : Nat := 200

/-- Embedding of `get_api_answer`.  On a transport error it logs and
returns the empty dict (`return {}` — it does NOT raise).  A non-200
status raises `requests.HTTPError`; a 200 response whose body fails to
decode raises `ValueError` with a fixed message; otherwise the decoded
mapping is returned unmodified.  (The f-string interpolates
`HTTPStatus.OK`, rendered as its numeric string here.) -/
def get_api_answer (outcome : HttpOutcome) :
    Except PyError Value × List LogEvent :=
  match outcome with
  | .transportError e =>
      (.ok (.dict []),
       [⟨.error, "Ошибка запроса к API. Получена ошибка: " ++ e ++ "."⟩])
  | .response status_code body =>
      if status_code != HTTPStatusOK then
        (.error (.httpError
          ("Ошибка HTTP: статус-код - " ++ toString status_code
            ++ ". Ожидался статус: " ++ toString HTTPStatusOK)), [])
      else
        match body with
        | .error _ =>
            (.error (.valueError "Ошибка декодирования JSON из ответа API"),
             [⟨.error, "Ошибка декодирования JSON из ответа API"⟩])
        | .ok response_data => (.ok response_data, [])

/-- Embedding of `check_response`: requires a dict, requires both keys
`homeworks` and `current_date`, requires the `homeworks` value to be a
list, requires that list non-empty; returns the list.  The bare `raise`
statements carry no message.  (The final catch-all covers the non-list
`homeworks` value exactly as `isinstance(homeworks, list)` does.) -/
def check_response (response : Value) :
    Except PyError (List Value) × List LogEvent :=
  match response with
  | .dict entries =>
      if (entries.lookup "homeworks").isNone then
        (.error .keyError,
         [⟨.error,
           "Обязательный ключ `homeworks` отсутсвует в словаре API."⟩])
      else if (entries.lookup "current_date").isNone then
        (.error .keyError,
         [⟨.error,
           "Обязательный ключ `current_date` отсутсвует в словаре API."⟩])
      else
        match entries.lookup "homeworks" with
        | some (.list homeworks) =>
            if homeworks.isEmpty then
              (.error (.valueError ""), [⟨.error, "Список домашек пуст."⟩])
            else (.ok homeworks, [])
        | _ =>
            (.error .typeError,
             [⟨.error,
               "Значение под ключом `homeworks` должно быть списком!"⟩])
  | _ =>
      (.error .typeError, [⟨.error, "Ожидался словарь с данными API."⟩])

/-- Python identity test `v is None`. -/
def Value.isNull : Value → Bool
  | .null => true
  | _ => false

/-- Python membership test `status in HOMEWORK_VERDICTS` together with the
subsequent `HOMEWORK_VERDICTS.get(status)`: a non-string value is never
equal to a string key, so only string statuses can match. -/
def verdictFor : Value → Option String
  | .str s => HOMEWORK_VERDICTS.lookup s
  | _ => none

/-- Embedding of `parse_status`.  A falsy record logs an error and returns
`None` (a bare `return`).  A truthy non-dict would make `.get` raise
`AttributeError`.  Otherwise `homework_name`/`status` are looked up with
`.get` (absent key yields `None`); a `None` name or a status outside
`HOMEWORK_VERDICTS` raises a bare `KeyError`; on success the notification
f-string is returned. -/
def parse_status (homework : Value) :
    Except PyError (Option String) × List LogEvent :=
  if homework.pyFalsy then
    (.ok none, [⟨.error, "Пустой ответ от API Яндекс Домашка."⟩])
  else
    match homework with
    | .dict entries =>
        let homework_name := (entries.lookup "homework_name").getD .null
        let homework_status := (entries.lookup "status").getD .null
        if homework_name.isNull ∨ (verdictFor homework_status).isNone
        then
          (.error .keyError,
           [⟨.error, "Неверный формат данных для домашней работы."⟩])
        else
          match verdictFor homework_status with
          | some verdict =>
              (.ok (some ("Изменился статус проверки работы \""
                ++ homework_name.pyStr ++ "\". " ++ verdict)), [])
          | none => (.error .keyError, [])
    | _ =>
        (.error (.attributeError
          "object has no attribute get"), [])

/-- The external world as one loop iteration observes it: the outcome of
the HTTP GET and, for each message text, the outcome of the underlying
Telegram delivery call (which `send_message` swallows either way). -/
structure Env where
  http : HttpOutcome
  send : String → Except String Unit

/-- The two loop-carried variables of `main`: `timestamp` (which
`response.get('current_date', timestamp)` may rebind to any value the
field holds) and `last_error_message`. -/
structure LoopState where
  timestamp : Value
  last_error_message : Option String

/-- Result of one iteration of the `while True` body: the new loop state,
the arguments of every `send_message` call made during the iteration in
order, and whether the `except`-branch failure notification fired. -/
structure StepResult where
  state : LoopState
  sent : List String
  failureNotified : Bool

/-- The `for homework in homeworks` loop of `main`: parse each record; a
raised exception aborts the loop (messages already sent stay sent); a
truthy message is dispatched via `send_message` (whose delivery outcome
never influences control flow). -/
def notifyHomeworks (env : Env) : List Value → List String × Option PyError
  | [] => ([], none)
  | homework :: rest =>
      match (parse_status homework).1 with
      | .error e => ([], some e)
      | .ok none => notifyHomeworks env rest
      | .ok (some message) =>
          if message != "" then
            let _ := send_message (env.send message) message
            (message :: (notifyHomeworks env rest).1,
              (notifyHomeworks env rest).2)
          else notifyHomeworks env rest

/-- The f-string `f'Сбой в работе программы: {e}'` of the `except` branch. -/
def failureText (e : PyError) : String :=
  "Сбой в работе программы: " ++ e.pyMessage

/-- The `except Exception` branch of `main`: format the error; when the
text differs from `last_error_message`, send it and remember it
(`send_message` cannot raise, so the assignment always follows); when it
is identical, send nothing and leave the state as it was. -/
def handleError (s : LoopState) (sentSoFar : List String) (e : PyError) :
    StepResult :=
  let error_message := failureText e
  if some error_message = s.last_error_message then
    ⟨s, sentSoFar, false⟩
  else
    ⟨⟨s.timestamp, some error_message⟩, sentSoFar ++ [error_message], true⟩

/-- One iteration of the `while True` body of `main` (the `time.sleep`
call carries no state).  The `try` block fetches, validates, notifies per
record, rebinds `timestamp` from the response's `current_date` and clears
`last_error_message`; any raised exception flows to `handleError`.  (On
the success path `check_response` has already ensured the response is a
dict containing `current_date`, so the non-dict fallback of the
`timestamp` rebinding is unreachable.) -/
def runIteration (env : Env) (s : LoopState) : StepResult :=
  match (get_api_answer env.http).1 with
  | .error e => handleError s [] e
  | .ok response =>
      match (check_response response).1 with
      | .error e => handleError s [] e
      | .ok homeworks =>
          match notifyHomeworks env homeworks with
          | (messages, some e) => handleError s messages e
          | (messages, none) =>
              let timestamp :=
                match response with
                | .dict entries =>
                    (entries.lookup "current_date").getD s.timestamp
                | _ => s.timestamp
              ⟨⟨timestamp, none⟩, messages, false⟩

/-- Several consecutive iterations of the loop, returning the final state
and each iteration's `StepResult` in order. -/
def runCycles (envs : List Env) (s : LoopState) :
    LoopState × List StepResult :=
  match envs with
  | [] => (s, [])
  | env :: rest =>
      ((runCycles rest (runIteration env s).state).1,
       runIteration env s :: (runCycles rest (runIteration env s).state).2)

/-- The exception (if any) the `try` block of one iteration raises, as a
function of the environment alone: neither fetching, validation nor
per-record parsing reads the loop state. -/
def iterError (env : Env) : Option PyError :=
  match (get_api_answer env.http).1 with
  | .error e => some e
  | .ok response =>
      match (check_response response).1 with
      | .error e => some e
      | .ok homeworks => (notifyHomeworks env homeworks).2

/-- Pre-loop part of `main`: the loop is entered iff `check_tokens`
returns `True` (otherwise `main` returns at once). -/
def mainEntersLoop (cfg : Config) : Bool :=
  (check_tokens cfg).1

/-- The messages dispatched by the `try` block of one iteration before a
possible exception, again a function of the environment alone. -/
def iterSentBody (env : Env) : List String :=
  match (get_api_answer env.http).1 with
  | .error _ => []
  | .ok response =>
      match (check_response response).1 with
      | .error _ => []
      | .ok homeworks => (notifyHomeworks env homeworks).1

/-- A failing iteration is `handleError` applied to the messages already
dispatched by the body. -/
theorem runIteration_failure (env : Env) (s : LoopState) (e : PyError)
    (h : iterError env = some e) :
    runIteration env s = handleError s (iterSentBody env) e := by
  unfold runIteration iterError iterSentBody at *
  rcases h1 : (get_api_answer env.http).1 with e1 | response
  · rw [h1] at h
    simp at h
    simp [h]
  · rw [h1] at h
    simp only at h ⊢
    rcases h2 : (check_response response).1 with e2 | homeworks
    · rw [h2] at h
      simp at h
      simp [h]
    · rw [h2] at h
      simp only at h ⊢
      rcases h3 : notifyHomeworks env homeworks with ⟨messages, failed⟩
      rw [h3] at h
      rcases failed with _ | e3
      · simp at h
      · simp at h
        simp [h]

/-- A successful iteration clears `last_error_message` and notifies no
failure. -/
theorem runIteration_success (env : Env) (s : LoopState)
    (h : iterError env = none) :
    (runIteration env s).state.last_error_message = none ∧
    (runIteration env s).failureNotified = false ∧
    (runIteration env s).sent = iterSentBody env := by
  unfold runIteration iterError iterSentBody at *
  rcases h1 : (get_api_answer env.http).1 with e1 | response
  · rw [h1] at h
    simp at h
  · rw [h1] at h
    simp only at h ⊢
    rcases h2 : (check_response response).1 with e2 | homeworks
    · rw [h2] at h
      simp at h
    · rw [h2] at h
      simp only at h ⊢
      rcases h3 : notifyHomeworks env homeworks with ⟨messages, failed⟩
      rw [h3] at h
      rcases failed with _ | e3
      · simp
      · simp at h

/-- Shape of the `except` branch when the formatted message repeats the
remembered one. -/
theorem handleError_repeat (s : LoopState) (sentSoFar : List String)
    (e : PyError) (h : s.last_error_message = some (failureText e)) :
    handleError s sentSoFar e = ⟨s, sentSoFar, false⟩ := by
  unfold handleError
  rw [h]
  simp

/-- Shape of the `except` branch when the formatted message is new. -/
theorem handleError_new (s : LoopState) (sentSoFar : List String)
    (e : PyError) (h : s.last_error_message ≠ some (failureText e)) :
    handleError s sentSoFar e =
      ⟨⟨s.timestamp, some (failureText e)⟩,
        sentSoFar ++ [failureText e], true⟩ := by
  unfold handleError
  rw [if_neg]
  intro hc
  exact h hc.symm

/-- C7: if any one of the three credentials (API token, bot token, chat
identifier) is absent or empty, `check_tokens` reports failure (returning
`False` after a critical log record) and `main` returns without entering
the polling loop; with all three present and non-empty the check passes
and the loop is entered. -/
theorem C7_credential_gate (cfg : Config) :
    ((tokenPresent cfg.practicum_token = false ∨
      tokenPresent cfg.telegram_token = false ∨
      tokenPresent cfg.telegram_chat_id = false) →
      (check_tokens cfg).1 = false ∧ mainEntersLoop cfg = false ∧
      ∃ ev ∈ (check_tokens cfg).2, ev.level = LogLevel.critical) ∧
    ((tokenPresent cfg.practicum_token = true ∧
      tokenPresent cfg.telegram_token = true ∧
      tokenPresent cfg.telegram_chat_id = true) →
      (check_tokens cfg).1 = true ∧ mainEntersLoop cfg = true) := by
  cases hp : tokenPresent cfg.practicum_token <;>
    cases ht : tokenPresent cfg.telegram_token <;>
      cases hc : tokenPresent cfg.telegram_chat_id <;>
        simp [mainEntersLoop, check_tokens, check_tokensAux, hp, ht, hc]

/-- Witness for C7 at concrete configurations: an empty first token fails
the gate, three non-empty tokens pass it. -/
theorem C7_credential_gate_witness :
    ((check_tokens ⟨some "", some "t", some "c"⟩).1 = false ∧
      mainEntersLoop ⟨some "", some "t", some "c"⟩ = false ∧
      ∃ ev ∈ (check_tokens ⟨some "", some "t", some "c"⟩).2,
        ev.level = LogLevel.critical) ∧
    (check_tokens ⟨some "a", some "b", some "c"⟩).1 = true ∧
    mainEntersLoop ⟨some "a", some "b", some "c"⟩ = true :=
  ⟨(C7_credential_gate ⟨some "", some "t", some "c"⟩).1 (Or.inl rfl),
   (C7_credential_gate ⟨some "a", some "b", some "c"⟩).2 ⟨rfl, rfl, rfl⟩⟩

/-- C8: when the outbound request completes, `get_api_answer` raises
`HTTPError` for every non-200 status; for a 200 status whose body fails to
decode it raises a distinct `ValueError`; and for a 200 status with a
decodable body it returns the decoded mapping unmodified. -/
theorem C8_status_and_decode (status_code : Nat) (body : Except String Value) :
    (status_code ≠ HTTPStatusOK →
      (get_api_answer (.response status_code body)).1 =
        .error (.httpError ("Ошибка HTTP: статус-код - "
          ++ toString status_code ++ ". Ожидался статус: "
          ++ toString HTTPStatusOK))) ∧
    (∀ e, status_code = HTTPStatusOK → body = .error e →
      (get_api_answer (.response status_code body)).1 =
        .error (.valueError "Ошибка декодирования JSON из ответа API")) ∧
    (∀ v, status_code = HTTPStatusOK → body = .ok v →
      (get_api_answer (.response status_code body)).1 = .ok v) ∧
    (∀ m1 m2, PyError.httpError m1 ≠ PyError.valueError m2) := by
  refine ⟨?_, ?_, ?_, ?_⟩
  · intro hne
    simp [get_api_answer, hne]
  · intro e hc hb
    subst hc; subst hb
    simp [get_api_answer]
  · intro v hc hb
    subst hc; subst hb
    simp [get_api_answer]
  · intro m1 m2 hc
    exact PyError.noConfusion hc

/-- Witness for C8 at concrete responses: a 404 raises the HTTP error, a
200 with an undecodable body raises the decode error, a 200 with a JSON
body returns it unchanged. -/
theorem C8_status_and_decode_witness :
    (get_api_answer (.response 404 (.ok (.dict [])))).1 =
      .error (.httpError ("Ошибка HTTP: статус-код - "
        ++ toString 404 ++ ". Ожидался статус: " ++ toString HTTPStatusOK)) ∧
    (get_api_answer (.response 200 (.error "invalid json"))).1 =
      .error (.valueError "Ошибка декодирования JSON из ответа API") ∧
    (get_api_answer (.response 200 (.ok (.int 3)))).1 = .ok (.int 3) :=
  ⟨(C8_status_and_decode 404 (.ok (.dict []))).1 (by decide),
   (C8_status_and_decode 200 (.error "invalid json")).2.1 "invalid json" rfl rfl,
   (C8_status_and_decode 200 (.ok (.int 3))).2.2.1 (.int 3) rfl rfl⟩

/-- C9: notification dispatch is best-effort: whatever the underlying
Telegram call does, `send_message` returns normally (never `.error`), and
when delivery fails it logs the failure. -/
theorem C9_send_best_effort (attempt : Except String Unit) (message : String) :
    (∃ logs, send_message attempt message = .ok logs) ∧
    (∀ e, attempt = .error e →
      send_message attempt message =
        .ok [⟨.error, "Не удалось отправить сообщение: " ++ e ++ "."⟩]) := by
  constructor
  · rcases attempt with e | u
    · exact ⟨_, rfl⟩
    · exact ⟨_, rfl⟩
  · intro e he
    subst he
    rfl

/-- Witness for C9 at a concrete failing delivery. -/
theorem C9_send_best_effort_witness :
    (∃ logs, send_message (Except.error "network down") "hello" = .ok logs) ∧
    send_message (Except.error "network down") "hello" =
      .ok [⟨.error, "Не удалось отправить сообщение: " ++ "network down"
        ++ "."⟩] :=
  ⟨(C9_send_best_effort (Except.error "network down") "hello").1,
   (C9_send_best_effort (Except.error "network down") "hello").2
     "network down" rfl⟩

/-- C4: every falsy homework record makes `parse_status` report an error
condition (an error-level log record) and yield no notification string
(it returns `None`). -/
theorem C4_falsy_record (homework : Value) (h : homework.pyFalsy = true) :
    (parse_status homework).1 = .ok none ∧
    (∀ s, (parse_status homework).1 ≠ .ok (some s)) ∧
    ∃ ev ∈ (parse_status homework).2, ev.level = LogLevel.error := by
  refine ⟨?_, ?_, ?_⟩ <;> simp [parse_status, h]

/-- Witness for C4 at the empty record. -/
theorem C4_falsy_record_witness :
    Value.pyFalsy (.dict []) = true ∧
    (parse_status (.dict [])).1 = Except.ok none ∧
    ∃ ev ∈ (parse_status (.dict [])).2, ev.level = LogLevel.error :=
  ⟨rfl, (C4_falsy_record (.dict []) rfl).1, (C4_falsy_record (.dict []) rfl).2.2⟩

/-- A verdict looked up in `HOMEWORK_VERDICTS` is one of its three fixed
texts. -/
theorem verdictFor_cases (v : Value) (verdict : String)
    (h : verdictFor v = some verdict) :
    verdict = "Работа проверена: ревьюеру всё понравилось. Ура!" ∨
    verdict = "Работа взята на проверку ревьюером." ∨
    verdict = "Работа проверена: у ревьюера есть замечания." := by
  cases v <;> simp [verdictFor] at h
  case str s =>
    simp only [HOMEWORK_VERDICTS, List.lookup] at h
    cases hb1 : s == "approved" with
    | true =>
        rw [hb1] at h
        exact Or.inl (Option.some.inj h).symm
    | false =>
        rw [hb1] at h
        cases hb2 : s == "reviewing" with
        | true =>
            rw [hb2] at h
            exact Or.inr (Or.inl (Option.some.inj h).symm)
        | false =>
            rw [hb2] at h
            cases hb3 : s == "rejected" with
            | true =>
                rw [hb3] at h
                exact Or.inr (Or.inr (Option.some.inj h).symm)
            | false =>
                rw [hb3] at h
                exact Option.noConfusion h

/-- The statuses accepted by the verdict table are exactly the three
enumerated keys. -/
theorem verdictFor_isSome (status : Value) :
    (verdictFor status).isSome = true ↔
      (status = Value.str "approved" ∨ status = Value.str "reviewing" ∨
        status = Value.str "rejected") := by
  cases status with
  | str s =>
      simp only [verdictFor, HOMEWORK_VERDICTS, List.lookup]
      cases hb1 : s == "approved" with
      | true =>
          have e1 : s = "approved" := by simpa using hb1
          simp [e1]
      | false =>
          have n1 : s ≠ "approved" := by simpa using hb1
          cases hb2 : s == "reviewing" with
          | true =>
              have e2 : s = "reviewing" := by simpa using hb2
              simp [e2]
          | false =>
              have n2 : s ≠ "reviewing" := by simpa using hb2
              cases hb3 : s == "rejected" with
              | true =>
                  have e3 : s = "rejected" := by simpa using hb3
                  simp [e3]
              | false =>
                  have n3 : s ≠ "rejected" := by simpa using hb3
                  simp [hb1, hb2, hb3, n1, n2, n3]
  | null => simp [verdictFor]
  | bool b => simp [verdictFor]
  | int n => simp [verdictFor]
  | list xs => simp [verdictFor]
  | dict es => simp [verdictFor]

/-- C6: on a non-empty homework record, `parse_status` raises `KeyError`
exactly when the record's `homework_name` is null or absent or its
`status` is outside the fixed verdict keys (`approved`, `reviewing`,
`rejected`); on success it returns the notification string built from the
homework name and the localized verdict text, which is never blank. -/
theorem C6_parse_status_verdicts (entries : List (String × Value))
    (h : entries ≠ []) :
    ((parse_status (.dict entries)).1 = .error .keyError ↔
      (((entries.lookup "homework_name").getD .null).isNull = true ∨
        verdictFor ((entries.lookup "status").getD .null) = none)) ∧
    (∀ verdict,
      ((entries.lookup "homework_name").getD .null).isNull = false →
      verdictFor ((entries.lookup "status").getD .null) = some verdict →
      (parse_status (.dict entries)).1 =
        .ok (some ("Изменился статус проверки работы \""
          ++ ((entries.lookup "homework_name").getD .null).pyStr
          ++ "\". " ++ verdict)) ∧ verdict ≠ "") ∧
    (∀ status : Value, (verdictFor status).isSome = true ↔
      (status = Value.str "approved" ∨ status = Value.str "reviewing" ∨
        status = Value.str "rejected")) := by
  have hfe : (Value.dict entries).pyFalsy = false := by
    cases entries with
    | nil => exact absurd rfl h
    | cons p rest => rfl
  refine ⟨?_, ?_, verdictFor_isSome⟩
  · by_cases hn : ((entries.lookup "homework_name").getD Value.null).isNull = true
    · simp [parse_status, hfe, hn]
    · simp only [Bool.not_eq_true] at hn
      rcases hv : verdictFor ((entries.lookup "status").getD Value.null) with _ | v
      · simp [parse_status, hfe, hn, hv]
      · simp [parse_status, hfe, hn, hv]
  · intro verdict hn hv
    refine ⟨by simp [parse_status, hfe, hn, hv], ?_⟩
    rcases verdictFor_cases _ _ hv with h1 | h1 | h1 <;> simp [h1]

/-- Witness for C6: a record with a known status produces the full
notification string; a record whose name is absent raises `KeyError`. -/
theorem C6_parse_status_verdicts_witness :
    (parse_status (.dict [("homework_name", .str "hw1"),
        ("status", .str "approved")])).1 =
      .ok (some ("Изменился статус проверки работы \""
        ++ Value.pyStr ((([("homework_name", Value.str "hw1"),
            ("status", Value.str "approved")].lookup "homework_name").getD
              Value.null))
        ++ "\". " ++ "Работа проверена: ревьюеру всё понравилось. Ура!")) ∧
    (parse_status (.dict [("status", .str "unknown")])).1 =
      .error .keyError :=
  ⟨((C6_parse_status_verdicts
      [("homework_name", .str "hw1"), ("status", .str "approved")]
      (List.cons_ne_nil _ _)).2.1
      "Работа проверена: ревьюеру всё понравилось. Ура!" rfl rfl).1,
   ((C6_parse_status_verdicts [("status", .str "unknown")]
      (List.cons_ne_nil _ _)).1).mpr (Or.inl rfl)⟩

/-- C5: `check_response` returns exactly the value under `homeworks` when
and only when the input is a mapping with both required keys whose
`homeworks` value is a non-empty list; every other input raises the
corresponding classified error: `TypeError` for a non-mapping,
`KeyError` for a missing key, `TypeError` for a non-list `homeworks`
value, `ValueError` for an empty list. -/
theorem C5_check_response_classified (response : Value) :
    (∀ homeworks, (check_response response).1 = .ok homeworks ↔
      ∃ entries, response = .dict entries ∧
        entries.lookup "homeworks" = some (.list homeworks) ∧
        (entries.lookup "current_date").isSome = true ∧ homeworks ≠ []) ∧
    ((∀ entries, response ≠ .dict entries) →
      (check_response response).1 = .error .typeError) ∧
    (∀ entries, response = .dict entries →
      ((entries.lookup "homeworks").isNone = true ∨
        (entries.lookup "current_date").isNone = true) →
      (check_response response).1 = .error .keyError) ∧
    (∀ entries, response = .dict entries →
      (entries.lookup "homeworks").isSome = true →
      (entries.lookup "current_date").isSome = true →
      (∀ xs, entries.lookup "homeworks" ≠ some (.list xs)) →
      (check_response response).1 = .error .typeError) ∧
    (∀ entries, response = .dict entries →
      entries.lookup "homeworks" = some (.list []) →
      (entries.lookup "current_date").isSome = true →
      (check_response response).1 = .error (.valueError "")) := by
  refine ⟨?_, ?_, ?_, ?_, ?_⟩
  · intro homeworks
    cases response with
    | dict entries =>
        rcases h1 : entries.lookup "homeworks" with _ | v
        · simp [check_response, h1]
        · rcases h2 : entries.lookup "current_date" with _ | w
          · have hcr : (check_response (.dict entries)).1 = .error .keyError := by
              simp [check_response, h1, h2]
            rw [hcr]
            constructor
            · intro hok
              exact Except.noConfusion hok
            · rintro ⟨e2, he, hl, hs, hn⟩
              cases he
              rw [h2] at hs
              exact Bool.noConfusion hs
          · cases v with
            | list xs =>
                rcases xs with _ | ⟨x, xs2⟩
                · have hcr : (check_response (.dict entries)).1 =
                      .error (.valueError "") := by
                    simp [check_response, h1, h2]
                  rw [hcr]
                  constructor
                  · intro hok
                    exact Except.noConfusion hok
                  · rintro ⟨e2, he, hl, hs, hn⟩
                    cases he
                    rw [h1] at hl
                    have h3 : Value.list [] = Value.list homeworks :=
                      Option.some.inj hl
                    injection h3 with h4
                    exact (hn h4.symm).elim
                · simp only [check_response, h1, h2, Option.isNone_some,
                    Bool.false_eq_true, if_false, List.isEmpty_cons]
                  constructor
                  · intro hok
                    have hxs : x :: xs2 = homeworks := Except.ok.inj hok
                    exact ⟨entries, rfl, by rw [h1, hxs], by simp [h2],
                      by rw [← hxs]; simp⟩
                  · rintro ⟨entries2, he, hl, _, _⟩
                    cases he
                    rw [h1] at hl
                    simp at hl
                    simp [hl]
            | null => simp [check_response, h1, h2]
            | bool b => simp [check_response, h1, h2]
            | int n => simp [check_response, h1, h2]
            | str s => simp [check_response, h1, h2]
            | dict es => simp [check_response, h1, h2]
    | null => simp [check_response]
    | bool b => simp [check_response]
    | int n => simp [check_response]
    | str s => simp [check_response]
    | list xs => simp [check_response]
  · intro hnd
    cases response with
    | dict entries => exact absurd rfl (hnd entries)
    | null => simp [check_response]
    | bool b => simp [check_response]
    | int n => simp [check_response]
    | str s => simp [check_response]
    | list xs => simp [check_response]
  · rintro entries rfl hmiss
    rcases hmiss with hm | hm
    · simp [check_response, hm]
    · rcases h1 : entries.lookup "homeworks" with _ | v
      · simp [check_response, h1]
      · simp [check_response, h1, hm]
  · rintro entries rfl hhw hcd hnl
    rcases h1 : entries.lookup "homeworks" with _ | v
    · rw [h1] at hhw
      exact absurd hhw (by simp)
    · rcases h2 : entries.lookup "current_date" with _ | w
      · rw [h2] at hcd
        exact absurd hcd (by simp)
      · cases v with
        | list xs => exact absurd h1 (hnl xs)
        | null => simp [check_response, h1, h2]
        | bool b => simp [check_response, h1, h2]
        | int n => simp [check_response, h1, h2]
        | str s => simp [check_response, h1, h2]
        | dict es => simp [check_response, h1, h2]
  · rintro entries rfl hl hcd
    rcases h2 : entries.lookup "current_date" with _ | w
    · rw [h2] at hcd
      exact absurd hcd (by simp)
    · simp [check_response, hl, h2]

/-- Witness for C5 at concrete responses: a well-formed response yields
its homework list; a response missing `current_date` raises `KeyError`. -/
theorem C5_check_response_classified_witness :
    (check_response (.dict [("homeworks", .list [.int 1]),
        ("current_date", .int 5)])).1 = .ok [.int 1] ∧
    (check_response (.dict [("homeworks", .list [.int 1])])).1 =
      .error .keyError :=
  ⟨((C5_check_response_classified (.dict [("homeworks", .list [.int 1]),
      ("current_date", .int 5)])).1 [.int 1]).mpr
      ⟨[("homeworks", .list [.int 1]), ("current_date", .int 5)], rfl, rfl,
        rfl, List.cons_ne_nil _ _⟩,
   (C5_check_response_classified
      (.dict [("homeworks", .list [.int 1])])).2.2.1
      [("homeworks", .list [.int 1])] rfl (Or.inr rfl)⟩

/-- Environment of a cycle whose HTTP request fails at transport level. -/
def envC2 : Env := ⟨.transportError "connection refused", fun _ => .ok ()⟩

/-- The same with a different transport error text. -/
def envC2b : Env := ⟨.transportError "dns failure", fun _ => .ok ()⟩

/-- A loop state with no previously reported error. -/
def stateC2 : LoopState := ⟨.int 0, none⟩

/-- C2 counterexample: on a transport failure `get_api_answer` does not
raise — it returns the empty dict — so the exception reaching the loop
boundary is the `KeyError` from `check_response`, and the chat receives
the constant text `Сбой в работе программы: ` (a bare `KeyError` prints
as the empty string), identical for two different transport errors: the
relayed notification does not describe the transport error. -/
theorem C2_counterexample :
    (get_api_answer (.transportError "connection refused")).1 =
      .ok (.dict []) ∧
    iterError envC2 = some .keyError ∧
    (runIteration envC2 stateC2).sent = ["Сбой в работе программы: "] ∧
    (runIteration envC2b stateC2).sent = (runIteration envC2 stateC2).sent :=
  ⟨rfl, rfl, rfl, rfl⟩

/-- C2 (amended): a transport-level failure is logged inside
`get_api_answer`, which returns an empty mapping instead of raising; the
loop then fails response validation with a `KeyError`, whose formatted
message (which does not carry the transport details) is relayed to the
chat if distinct from the last reported error, and suppressed when
identical. -/
theorem C2_transport_failure (e : String) (s : LoopState)
    (send : String → Except String Unit) :
    (get_api_answer (.transportError e)).1 = .ok (.dict []) ∧
    (get_api_answer (.transportError e)).2 =
      [⟨.error, "Ошибка запроса к API. Получена ошибка: " ++ e ++ "."⟩] ∧
    iterError ⟨.transportError e, send⟩ = some .keyError ∧
    (s.last_error_message ≠ some (failureText .keyError) →
      (runIteration ⟨.transportError e, send⟩ s).sent =
        [failureText .keyError] ∧
      (runIteration ⟨.transportError e, send⟩ s).failureNotified = true ∧
      (runIteration ⟨.transportError e, send⟩ s).state.last_error_message =
        some (failureText .keyError)) ∧
    (s.last_error_message = some (failureText .keyError) →
      (runIteration ⟨.transportError e, send⟩ s).failureNotified = false ∧
      (runIteration ⟨.transportError e, send⟩ s).sent = []) := by
  have hfail : iterError ⟨.transportError e, send⟩ = some .keyError := rfl
  have hbody : iterSentBody ⟨.transportError e, send⟩ = [] := rfl
  refine ⟨rfl, rfl, hfail, ?_, ?_⟩
  · intro hne
    rw [runIteration_failure ⟨.transportError e, send⟩ s _ hfail,
      handleError_new s _ _ hne, hbody]
    exact ⟨rfl, rfl, rfl⟩
  · intro heq
    rw [runIteration_failure ⟨.transportError e, send⟩ s _ hfail,
      handleError_repeat s _ _ heq, hbody]
    exact ⟨rfl, rfl⟩

/-- Witness for C2 (amended) at a concrete timeout with a fresh error
state. -/
theorem C2_transport_failure_witness :
    (get_api_answer (.transportError "timeout")).1 = .ok (.dict []) ∧
    (runIteration ⟨.transportError "timeout", fun _ => .ok ()⟩
      ⟨.int 0, none⟩).sent = [failureText .keyError] ∧
    (runIteration ⟨.transportError "timeout", fun _ => .ok ()⟩
      ⟨.int 0, none⟩).failureNotified = true :=
  ⟨(C2_transport_failure "timeout" ⟨.int 0, none⟩ (fun _ => .ok ())).1,
   ((C2_transport_failure "timeout" ⟨.int 0, none⟩ (fun _ => .ok ())).2.2.2.1
     (by simp)).1,
   ((C2_transport_failure "timeout" ⟨.int 0, none⟩ (fun _ => .ok ())).2.2.2.1
     (by simp)).2.1⟩

/-- A valid homework record used in concrete cycles. -/
def hwRecordC3 : Value :=
  .dict [("homework_name", .str "hw"), ("status", .str "approved")]

/-- A well-formed API response whose `current_date` is 0. -/
def respC3 : Value :=
  .dict [("homeworks", .list [hwRecordC3]), ("current_date", .int 0)]

/-- Environment of a fully successful cycle returning `current_date` 0. -/
def envC3 : Env := ⟨.response 200 (.ok respC3), fun _ => .ok ()⟩

/-- A loop state whose cursor is 100. -/
def stateC3 : LoopState := ⟨.int 100, none⟩

/-- C3 counterexample: a fully successful cycle (no exception, error state
cleared) whose response carries `current_date` 0 rewinds the cursor from
100 to 0 — the next fetch would use an earlier value than the previous
one, refuting "never rewound ... for every value the current_date field
may hold". -/
theorem C3_counterexample :
    iterError envC3 = none ∧
    stateC3.timestamp = .int 100 ∧
    (runIteration envC3 stateC3).state.timestamp = .int 0 ∧
    (runIteration envC3 stateC3).state.last_error_message = none ∧
    (0 : Int) < 100 :=
  ⟨rfl, rfl, rfl, rfl, by decide⟩

/-- C3 (amended): the cursor is updated only by a successful cycle, which
adopts the response's `current_date` value verbatim — even one earlier
than the previous cursor — while a failing cycle leaves the cursor
unchanged. -/
theorem C3_cursor_update (env : Env) (s : LoopState) :
    (∀ e, iterError env = some e →
      (runIteration env s).state.timestamp = s.timestamp) ∧
    (∀ entries v, (get_api_answer env.http).1 = .ok (.dict entries) →
      iterError env = none →
      entries.lookup "current_date" = some v →
      (runIteration env s).state.timestamp = v) := by
  constructor
  · intro e he
    rw [runIteration_failure env s e he]
    by_cases hc : s.last_error_message = some (failureText e)
    · rw [handleError_repeat s _ e hc]
    · rw [handleError_new s _ e hc]
  · intro entries v hresp hnone hl
    unfold runIteration iterError at *
    rw [hresp] at hnone ⊢
    simp only at hnone ⊢
    rcases h2 : (check_response (.dict entries)).1 with e2 | hws
    · rw [h2] at hnone
      simp at hnone
    · rw [h2] at hnone
      simp only at hnone ⊢
      rcases h3 : notifyHomeworks env hws with ⟨msgs, failed⟩
      rw [h3] at hnone
      rcases failed with _ | e3
      · simp [hl]
      · simp at hnone

/-- Witness for C3 (amended): the successful cycle above adopts
`current_date` 0; a transport-failing cycle keeps the cursor. -/
theorem C3_cursor_update_witness :
    (runIteration envC3 stateC3).state.timestamp = .int 0 ∧
    (runIteration ⟨.transportError "x", fun _ => .ok ()⟩
      stateC3).state.timestamp = stateC3.timestamp :=
  ⟨(C3_cursor_update envC3 stateC3).2
      [("homeworks", .list [hwRecordC3]), ("current_date", .int 0)]
      (.int 0) rfl rfl rfl,
   (C3_cursor_update ⟨.transportError "x", fun _ => .ok ()⟩ stateC3).1
      .keyError rfl⟩

/-- While the remembered error message stays equal to every cycle's
formatted failure, no further failure notification fires and the
remembered message is preserved. -/
theorem runCycles_failure_suppressed :
    ∀ (envs : List Env) (E : String) (s : LoopState),
    (∀ env ∈ envs, ∃ e, iterError env = some e ∧ failureText e = E) →
    s.last_error_message = some E →
    ((runCycles envs s).2.countP (fun r => r.failureNotified)) = 0 ∧
    (runCycles envs s).1.last_error_message = some E
  | [], E, s, _, hlast => by
      refine ⟨?_, ?_⟩
      · simp [runCycles]
      · simpa [runCycles] using hlast
  | env :: rest, E, s, hall, hlast => by
      obtain ⟨e, he, hE⟩ := hall env (List.mem_cons_self _ _)
      have hrepeat : s.last_error_message = some (failureText e) := by
        rw [hE]
        exact hlast
      have h1 : runIteration env s = ⟨s, iterSentBody env, false⟩ := by
        rw [runIteration_failure env s e he]
        exact handleError_repeat s _ e hrepeat
      have ih := runCycles_failure_suppressed rest E s
        (fun env2 hm => hall env2 (List.mem_cons_of_mem _ hm)) hlast
      simp only [runCycles, h1, List.countP_cons]
      refine ⟨?_, ih.2⟩
      simp [ih.1]

/-- C1: a failing cycle whose formatted message equals the remembered one
sends no failure notification and leaves the state unchanged; one with a
different message sends it after the body's messages and remembers it; a
fully successful cycle resets the remembered message to `None`; and any
non-empty run of failing cycles with one identical message, started with
a different remembered message, produces exactly one failure
notification. -/
theorem C1_error_dedup :
    (∀ env s e, iterError env = some e →
      s.last_error_message = some (failureText e) →
      (runIteration env s).failureNotified = false ∧
      (runIteration env s).state = s) ∧
    (∀ env s e, iterError env = some e →
      s.last_error_message ≠ some (failureText e) →
      (runIteration env s).failureNotified = true ∧
      (runIteration env s).state.last_error_message =
        some (failureText e) ∧
      (runIteration env s).sent = iterSentBody env ++ [failureText e]) ∧
    (∀ env s, iterError env = none →
      (runIteration env s).state.last_error_message = none) ∧
    (∀ E envs s, envs ≠ [] →
      (∀ env ∈ envs, ∃ e, iterError env = some e ∧ failureText e = E) →
      s.last_error_message ≠ some E →
      ((runCycles envs s).2.countP (fun r => r.failureNotified)) = 1) := by
  refine ⟨?_, ?_, ?_, ?_⟩
  · intro env s e he hrepeat
    rw [runIteration_failure env s e he, handleError_repeat s _ e hrepeat]
    exact ⟨rfl, rfl⟩
  · intro env s e he hnew
    rw [runIteration_failure env s e he, handleError_new s _ e hnew]
    exact ⟨rfl, rfl, rfl⟩
  · intro env s h
    exact (runIteration_success env s h).1
  · intro E envs s hne hall hlast
    cases envs with
    | nil => exact absurd rfl hne
    | cons env rest =>
        obtain ⟨e, he, hE⟩ := hall env (List.mem_cons_self _ _)
        have hnew : s.last_error_message ≠ some (failureText e) := by
          rw [hE]
          exact hlast
        have h1 : runIteration env s =
            ⟨⟨s.timestamp, some (failureText e)⟩,
              iterSentBody env ++ [failureText e], true⟩ := by
          rw [runIteration_failure env s e he]
          exact handleError_new s _ e hnew
        have hsupp := runCycles_failure_suppressed rest E
          ⟨s.timestamp, some (failureText e)⟩
          (fun env2 hm => hall env2 (List.mem_cons_of_mem _ hm))
          (by simp [hE])
        simp only [runCycles, h1, List.countP_cons]
        simp [hsupp.1]

/-- Environment of a cycle failing with the constant `KeyError` message. -/
def envC1 : Env := ⟨.transportError "refused", fun _ => .ok ()⟩

/-- Environment of a fully successful cycle. -/
def envC1Ok : Env :=
  ⟨.response 200 (.ok (.dict [("homeworks",
      .list [.dict [("homework_name", .str "hw"),
        ("status", .str "approved")]]),
    ("current_date", .int 3)])), fun _ => .ok ()⟩

/-- Witness for C1: dedup on a repeated message, notification on a new
one, reset on success, and exactly one notification over two identical
failing cycles. -/
theorem C1_error_dedup_witness :
    (runIteration envC1
      ⟨.int 0, some (failureText .keyError)⟩).failureNotified = false ∧
    (runIteration envC1 ⟨.int 0, none⟩).failureNotified = true ∧
    (runIteration envC1Ok
      ⟨.int 0, some (failureText .keyError)⟩).state.last_error_message =
        none ∧
    ((runCycles [envC1, envC1] ⟨.int 0, none⟩).2.countP
      (fun r => r.failureNotified)) = 1 :=
  ⟨(C1_error_dedup.1 envC1 ⟨.int 0, some (failureText .keyError)⟩
      .keyError rfl rfl).1,
   (C1_error_dedup.2.1 envC1 ⟨.int 0, none⟩ .keyError rfl (by simp)).1,
   C1_error_dedup.2.2.1 envC1Ok ⟨.int 0, some (failureText .keyError)⟩ rfl,
   C1_error_dedup.2.2.2 (failureText .keyError) [envC1, envC1]
     ⟨.int 0, none⟩ (by simp)
     (by
       intro env2 hm
       rcases List.mem_cons.mp hm with rfl | hm2
       · exact ⟨.keyError, rfl, rfl⟩
       · rcases List.mem_cons.mp hm2 with rfl | hm3
         · exact ⟨.keyError, rfl, rfl⟩
         · cases hm3)
     (by simp)⟩

/-- Dispatching a list that starts with a fully handled prefix appends
that prefix's messages before whatever the remainder produces. -/
theorem notifyHomeworks_append (env : Env) :
    ∀ (pre : List Value) (messages : List String),
    notifyHomeworks env pre = (messages, none) →
    ∀ rest, notifyHomeworks env (pre ++ rest) =
      (messages ++ (notifyHomeworks env rest).1,
        (notifyHomeworks env rest).2)
  | [], messages, hpre, rest => by
      simp only [notifyHomeworks] at hpre
      injection hpre with h1 h2
      subst h1
      simp
  | hw :: pre2, messages, hpre, rest => by
      rcases hp : (parse_status hw).1 with e | mo
      · rw [List.cons_append]
        simp only [notifyHomeworks, hp] at hpre ⊢
        injection hpre with h1 h2
        exact Option.noConfusion h2
      · rcases mo with _ | m
        · rw [List.cons_append]
          simp only [notifyHomeworks, hp] at hpre ⊢
          exact notifyHomeworks_append env pre2 messages hpre rest
        · by_cases hm : m = ""
          · subst hm
            rw [List.cons_append]
            simp only [notifyHomeworks, hp, bne_self_eq_false,
              Bool.false_eq_true, if_false] at hpre ⊢
            exact notifyHomeworks_append env pre2 messages hpre rest
          · have hb : (m != "") = true := by simpa using hm
            rw [List.cons_append]
            simp only [notifyHomeworks, hp, hb, if_true] at hpre ⊢
            injection hpre with h1 h2
            have hpre2 : notifyHomeworks env pre2 =
                ((notifyHomeworks env pre2).1, none) := by
              rw [← h2]
            have ih := notifyHomeworks_append env pre2
              (notifyHomeworks env pre2).1 hpre2 rest
            rw [ih]
            subst h1
            simp

/-- A record accepted by `parse_status` in the C10 scenario. -/
def hwGoodC10 : Value :=
  .dict [("homework_name", .str "hw-ok"), ("status", .str "reviewing")]

/-- A record rejected by `parse_status` (unknown status). -/
def hwBadC10 : Value :=
  .dict [("homework_name", .str "hw-bad"), ("status", .str "unexpected")]

/-- A well-formed response whose list mixes the two records. -/
def respC10 : Value :=
  .dict [("homeworks", .list [hwGoodC10, hwBadC10]),
    ("current_date", .int 42)]

/-- Environment serving that response on every fetch. -/
def envC10 : Env := ⟨.response 200 (.ok respC10), fun _ => .ok ()⟩

/-- A loop state with cursor 7 and no remembered error. -/
def stateC10 : LoopState := ⟨.int 7, none⟩

/-- The notification text produced for the good C10 record. -/
def msgC10 : String :=
  "Изменился статус проверки работы \"hw-ok\". "
    ++ "Работа взята на проверку ревьюером."

/-- C10: an iteration is not atomic: when parsing fails midway through a
validated list, the messages of the preceding records have already been
dispatched, while the cursor is not advanced and `last_error_message` is
not cleared; concretely, two cycles over the same mixed list deliver the
good record's notification twice while the cursor stays put. -/
theorem C10_nonatomic_iteration :
    (∀ env s response homeworks pre bad rest e messages,
      (get_api_answer env.http).1 = .ok response →
      (check_response response).1 = .ok homeworks →
      homeworks = pre ++ bad :: rest →
      notifyHomeworks env pre = (messages, none) →
      (parse_status bad).1 = .error e →
      (runIteration env s).sent.take messages.length = messages ∧
      (runIteration env s).state.timestamp = s.timestamp ∧
      (runIteration env s).state.last_error_message ≠ none) ∧
    (runCycles [envC10, envC10] stateC10).2.map (fun r => r.sent) =
      [[msgC10, failureText .keyError], [msgC10]] ∧
    (runCycles [envC10, envC10] stateC10).1.timestamp =
      stateC10.timestamp := by
  refine ⟨?_, rfl, rfl⟩
  intro env s response homeworks pre bad rest e messages hresp hcheck
    hsplit hpre hbad
  have hbr : notifyHomeworks env (bad :: rest) = ([], some e) := by
    simp only [notifyHomeworks, hbad]
  have hn : notifyHomeworks env homeworks = (messages, some e) := by
    rw [hsplit, notifyHomeworks_append env pre messages hpre (bad :: rest),
      hbr]
    simp
  have hiter : iterError env = some e := by
    unfold iterError
    rw [hresp]
    simp only
    rw [hcheck]
    simp only
    rw [hn]
  have hbody : iterSentBody env = messages := by
    unfold iterSentBody
    rw [hresp]
    simp only
    rw [hcheck]
    simp only
    rw [hn]
  by_cases hlast : s.last_error_message = some (failureText e)
  · rw [runIteration_failure env s e hiter, handleError_repeat s _ e hlast,
      hbody]
    refine ⟨by simp, rfl, ?_⟩
    rw [hlast]
    simp
  · rw [runIteration_failure env s e hiter, handleError_new s _ e hlast,
      hbody]
    refine ⟨?_, rfl, by simp⟩
    exact List.take_left messages [failureText e]

/-- Witness for C10 at the concrete mixed list: the good record's message
is already in the sent list, the cursor and error state show the failing
iteration. -/
theorem C10_nonatomic_iteration_witness :
    (runIteration envC10 stateC10).sent.take 1 = [msgC10] ∧
    (runIteration envC10 stateC10).state.timestamp = stateC10.timestamp ∧
    (runIteration envC10 stateC10).state.last_error_message ≠ none :=
  C10_nonatomic_iteration.1 envC10 stateC10 respC10 [hwGoodC10, hwBadC10]
    [hwGoodC10] hwBadC10 [] .keyError [msgC10] rfl rfl rfl rfl rfl

end HomeworkBot
